import Mathlib

/-!
Verification development for the quote-aggregation endpoint
(`src/api/yfinance.py`).  The Python module is shallowly embedded:
Python floats are modelled by `PyFloat` (exact rationals plus the two
infinities and NaN), raw upstream values by `PyVal`, the `or`-chains by
`pyOr` over Python truthiness, and the request handler `handler.do_GET`
by the pure function `do_GET` over an `Upstream` oracle supplying the
per-symbol `fast_info` snapshot and the 5-day history.
-/

namespace YFin

/-- A Python float value: a finite value (modelled exactly as a rational),
a signed infinity, or NaN. -/
inductive PyFloat where
  | finite (q : ℚ)
  | inf (pos : Bool)
  | nan
  deriving DecidableEq, Repr

/-- A raw value as it may come out of the upstream `fast_info` mapping:
`none` models Python `None` (and an absent key, since `dict.get` returns
`None` for those), `num f` a Python int/float, `strNum f` a (necessarily
non-empty) string that `float()` parses to `f`, `strBad s` a string that
`float()` rejects, and `obj` any other object `float()` rejects. -/
inductive PyVal where
  | none
  | num (f : PyFloat)
  | strNum (f : PyFloat)
  | strBad (s : String)
  | obj
  deriving DecidableEq, Repr

/-- Python truthiness of a raw value (`bool(value)`): `None` and the
float `0.0` are falsy, every non-empty string (in particular every string
`float()` accepts) is truthy, NaN and the infinities are truthy. -/
def truthy : PyVal → Bool
  | PyVal.none => false
  | PyVal.num (PyFloat.finite q) => decide (q ≠ 0)
  | PyVal.num _ => true
  | PyVal.strNum _ => true
  | PyVal.strBad s => decide (s ≠ "")
  | PyVal.obj => true

/-- Python `a or b`: `a` when `a` is truthy, otherwise `b`. -/
def pyOr (a b : PyVal) : PyVal :=
  if truthy a then a else b

/-- Python `float(value)`: succeeds on numbers and on numeric strings,
raises (modelled as `Except.error`) on `None`, unparsable strings and
other objects. -/
def tryFloat : PyVal → Except Unit PyFloat
  | PyVal.none => Except.error ()
  | PyVal.num f => Except.ok f
  | PyVal.strNum f => Except.ok f
  | PyVal.strBad _ => Except.error ()
  | PyVal.obj => Except.error ()

/-- IEEE equality test used by the code's `out != out` NaN guard:
NaN compares unequal to itself, every other float equal to itself. -/
def pyEqSelf : PyFloat → Bool
  | PyFloat.nan => false
  | _ => true

/-- `as_float` from the source: `None` maps to `None`; otherwise the
value is converted with `float()` inside a `try`, a NaN result is folded
to `None`, and any conversion exception is caught and folded to `None`. -/
def as_float (value : PyVal) : Option PyFloat :=
  if value = PyVal.none then Option.none
  else
    match tryFloat value with
    | Except.error _ => Option.none
    | Except.ok out => if pyEqSelf out = false then Option.none else some out

/-- IEEE subtraction on the embedded floats (finite arithmetic exact). -/
def PyFloat.sub : PyFloat → PyFloat → PyFloat
  | PyFloat.nan, _ => PyFloat.nan
  | _, PyFloat.nan => PyFloat.nan
  | PyFloat.finite a, PyFloat.finite b => PyFloat.finite (a - b)
  | PyFloat.inf p, PyFloat.finite _ => PyFloat.inf p
  | PyFloat.finite _, PyFloat.inf p => PyFloat.inf (!p)
  | PyFloat.inf p, PyFloat.inf q => if p = q then PyFloat.nan else PyFloat.inf p

/-- IEEE division on the embedded floats (finite arithmetic exact;
the division-by-zero cases are unreachable behind the code's
`prev_close > 0` guard and are mapped to NaN). -/
def PyFloat.div : PyFloat → PyFloat → PyFloat
  | PyFloat.nan, _ => PyFloat.nan
  | _, PyFloat.nan => PyFloat.nan
  | PyFloat.finite a, PyFloat.finite b =>
      if b = 0 then PyFloat.nan else PyFloat.finite (a / b)
  | PyFloat.inf p, PyFloat.finite b =>
      if b = 0 then PyFloat.nan else PyFloat.inf (p = decide (0 < b))
  | PyFloat.finite _, PyFloat.inf _ => PyFloat.finite 0
  | PyFloat.inf _, PyFloat.inf _ => PyFloat.nan

/-- IEEE multiplication on the embedded floats (finite arithmetic exact). -/
def PyFloat.mul : PyFloat → PyFloat → PyFloat
  | PyFloat.nan, _ => PyFloat.nan
  | _, PyFloat.nan => PyFloat.nan
  | PyFloat.finite a, PyFloat.finite b => PyFloat.finite (a * b)
  | PyFloat.inf p, PyFloat.finite b =>
      if b = 0 then PyFloat.nan else PyFloat.inf (p = decide (0 < b))
  | PyFloat.finite a, PyFloat.inf p =>
      if a = 0 then PyFloat.nan else PyFloat.inf (p = decide (0 < a))
  | PyFloat.inf p, PyFloat.inf q => PyFloat.inf (p = q)

/-- Python `x > 0` on a float: false for NaN, true for `+inf`. -/
def PyFloat.gtZero : PyFloat → Bool
  | PyFloat.finite q => decide (0 < q)
  | PyFloat.inf p => p
  | PyFloat.nan => false

/-- `MAX_SYMBOLS = 220` from the source. -/
def MAX_SYMBOLS : ℕ := 220

/-- Python strings are embedded as their character lists, so that every
string operation the code performs is structurally recursive. -/
abbrev PyStr := List Char

/-- Helper for `str.split(",")`: accumulate the current token
(in reverse) and cut at every comma. -/
def splitCommaAux : List Char → List Char → List PyStr
  | [], acc => [acc.reverse]
  | c :: cs, acc =>
      if c = ',' then acc.reverse :: splitCommaAux cs []
      else splitCommaAux cs (c :: acc)

/-- Python `raw.split(",")` (note `"".split(",") == [""]`). -/
def splitComma (s : PyStr) : List PyStr :=
  splitCommaAux s []

/-- Python `str.strip()`: remove leading and trailing whitespace. -/
def pyStrip (s : PyStr) : PyStr :=
  ((s.dropWhile Char.isWhitespace).reverse.dropWhile Char.isWhitespace).reverse

/-- Python `str.upper()` on the ASCII ticker alphabet. -/
def pyUpper (s : PyStr) : PyStr :=
  s.map Char.toUpper

/-- The loop body of `unique_symbols`: walk the comma-split tokens,
normalize each (strip + uppercase), and keep a token only when it is
non-empty and not already seen. -/
def uniqAux : List PyStr → List PyStr → List PyStr
  | [], _ => []
  | t :: ts, seen =>
      let symbol := pyUpper (pyStrip t)
      if symbol = [] ∨ symbol ∈ seen then uniqAux ts seen
      else symbol :: uniqAux ts (symbol :: seen)

/-- `unique_symbols` from the source: split the raw value on `","`,
strip and uppercase each token, drop empties, deduplicate keeping the
first occurrence. -/
def unique_symbols (raw : PyStr) : List PyStr :=
  uniqAux (splitComma raw) []

/-- The 5-day daily history DataFrame, as far as the code inspects it:
the number of index entries, and the `Close` and `Volume` columns (each
possibly absent, each a list of float cells ordered oldest to newest,
with NaN marking a missing cell). -/
structure History where
  indexLen : ℕ
  hasClose : Bool
  closeCol : List PyFloat
  hasVolume : Bool
  volumeCol : List PyFloat
  deriving DecidableEq, Repr

/-- pandas `Series.dropna`: drop the NaN cells of a column. -/
def dropna (col : List PyFloat) : List PyFloat :=
  col.filter (fun f => f ≠ PyFloat.nan)

/-- `parse_close_and_prev` from the source: `(None, None, None)` for a
missing or empty history; otherwise the last dropna'd close (`closes[-1]`),
the second-to-last dropna'd close (`closes[-2]`), and the last dropna'd
volume (`volumes[-1]`), each passed through `as_float`, with `None`
whenever the corresponding list is too short. -/
def parse_close_and_prev (history : Option History) :
    Option PyFloat × Option PyFloat × Option PyFloat :=
  match history with
  | Option.none => (Option.none, Option.none, Option.none)
  | some h =>
      if h.indexLen = 0 then (Option.none, Option.none, Option.none)
      else
        let closes := if h.hasClose then dropna h.closeCol else []
        let volumes := if h.hasVolume then dropna h.volumeCol else []
        let close := closes.getLast?.bind (fun f => as_float (PyVal.num f))
        let prev_close := closes.dropLast.getLast?.bind (fun f => as_float (PyVal.num f))
        let volume := volumes.getLast?.bind (fun f => as_float (PyVal.num f))
        (close, prev_close, volume)

/-- The `fast_info` snapshot, as far as the code reads it: the raw value
under each of the nine numeric candidate keys (with `PyVal.none` for an
absent key, exactly as `dict.get` yields `None`), plus the `currency`
and `exchange` string fields. -/
structure FastInfo where
  lastPrice : PyVal := PyVal.none
  last_price : PyVal := PyVal.none
  regularMarketPrice : PyVal := PyVal.none
  previousClose : PyVal := PyVal.none
  previous_close : PyVal := PyVal.none
  lastVolume : PyVal := PyVal.none
  last_volume : PyVal := PyVal.none
  marketCap : PyVal := PyVal.none
  market_cap : PyVal := PyVal.none
  currency : Option PyStr := Option.none
  exchange : Option PyStr := Option.none
  deriving DecidableEq, Repr

/-- The empty snapshot `{}` the code substitutes when `fast_info` is
unavailable. -/
def emptyFast : FastInfo := {}

/-- The upstream provider, per symbol: the `fast_info` retrieval and the
`history(period="5d", interval="1d", auto_adjust=False)` retrieval, each
of which may raise (`Except.error`). -/
structure Upstream where
  fast : PyStr → Except Unit FastInfo
  hist : PyStr → Except Unit (Option History)

/-- The snapshot actually used for a symbol: the retrieved `fast_info`,
or the empty snapshot when retrieval raised (`try ... except: fast = {}`). -/
def getFast (u : Upstream) (symbol : PyStr) : FastInfo :=
  match u.fast symbol with
  | Except.ok f => f
  | Except.error _ => emptyFast

/-- `close = as_float(fast.get("lastPrice") or fast.get("last_price") or
fast.get("regularMarketPrice"))`. -/
def liveClose (f : FastInfo) : Option PyFloat :=
  as_float (pyOr f.lastPrice (pyOr f.last_price f.regularMarketPrice))

/-- `prev_close = as_float(fast.get("previousClose") or
fast.get("previous_close"))`. -/
def livePrevClose (f : FastInfo) : Option PyFloat :=
  as_float (pyOr f.previousClose f.previous_close)

/-- `volume = as_float(fast.get("lastVolume") or fast.get("last_volume"))`. -/
def liveVolume (f : FastInfo) : Option PyFloat :=
  as_float (pyOr f.lastVolume f.last_volume)

/-- `market_cap = as_float(fast.get("marketCap") or fast.get("market_cap"))`. -/
def liveMarketCap (f : FastInfo) : Option PyFloat :=
  as_float (pyOr f.marketCap f.market_cap)

/-- The close/previous-close/volume triple after the historical fallback
block: when the live close is absent the history is fetched (a raised
exception skips the whole block), and each of the three fields is filled
from the parsed history only when still `None`. -/
def resolved (u : Upstream) (symbol : PyStr) :
    Option PyFloat × Option PyFloat × Option PyFloat :=
  let f := getFast u symbol
  let close := liveClose f
  let prev_close := livePrevClose f
  let volume := liveVolume f
  if close = Option.none then
    match u.hist symbol with
    | Except.error _ => (close, prev_close, volume)
    | Except.ok history =>
        match parse_close_and_prev history with
        | (h_close, h_prev, h_vol) =>
            ((if close = Option.none then h_close else close),
             (if prev_close = Option.none then h_prev else prev_close),
             (if volume = Option.none then h_vol else volume))
  else (close, prev_close, volume)

/-- One element of the response payload. -/
structure Record where
  symbol : PyStr
  price : PyFloat
  previousClose : Option PyFloat
  changePct : Option PyFloat
  marketCap : Option PyFloat
  volume : Option PyFloat
  averageVolume : Option PyFloat
  high24h : Option PyFloat
  low24h : Option PyFloat
  currency : PyStr
  exchange : Option PyStr
  name : PyStr
  deriving DecidableEq, Repr

/-- `currency or "USD"`: Python `or` on the currency string, so both an
absent currency and an empty-string currency fall back to `"USD"`. -/
def currencyOut : Option PyStr → PyStr
  | Option.none => "USD".toList
  | some s => if s = [] then "USD".toList else s

/-- The `change_pct` block: `None` unless `prev_close` is present and
`> 0`, else `((close - prev_close) / prev_close) * 100.0`. -/
def changePctOf (close : PyFloat) (prev_close : Option PyFloat) : Option PyFloat :=
  match prev_close with
  | some p =>
      if p.gtZero then
        some (PyFloat.mul (PyFloat.div (PyFloat.sub close p) p) (PyFloat.finite 100))
      else Option.none
  | Option.none => Option.none

/-- One iteration of the symbol loop: `None` when the symbol is dropped
(`if close is None: continue`), otherwise the emitted record, with
`change_pct` computed only when `prev_close` is present and `> 0`. -/
def resolveSymbol (u : Upstream) (symbol : PyStr) : Option Record :=
  let f := getFast u symbol
  match resolved u symbol with
  | (Option.none, _, _) => Option.none
  | (some close, prev_close, volume) =>
      let change_pct := changePctOf close prev_close
      some
        { symbol := symbol
          price := close
          previousClose := prev_close
          changePct := change_pct
          marketCap := liveMarketCap f
          volume := volume
          averageVolume := Option.none
          high24h := Option.none
          low24h := Option.none
          currency := currencyOut f.currency
          exchange := f.exchange
          name := symbol }

/-- The `for symbol in symbols` loop building `payload`: dropped symbols
contribute nothing (`continue`), resolved symbols append their record. -/
def buildPayload (u : Upstream) : List PyStr → List Record
  | [] => []
  | s :: ss =>
      match resolveSymbol u s with
      | Option.none => buildPayload u ss
      | some r => r :: buildPayload u ss

/-- The response body: the 400 error object or the JSON array of records. -/
inductive Body where
  | err (msg : String)
  | arr (records : List Record)
  deriving DecidableEq, Repr

/-- The HTTP response as far as the handler shapes it. -/
structure Response where
  status : ℕ
  contentType : String
  cacheControl : Option String
  body : Body
  deriving DecidableEq, Repr

/-- `handler.do_GET`, given the already-extracted raw `symbols` query
value (missing parameter ≡ `""`): normalize and truncate the symbol
list, answer 400 `{"error": "missing_symbols"}` when it is empty, and
otherwise answer 200 with the payload built from the upstream. -/
def do_GET (u : Upstream) (raw : PyStr) : Response :=
  let symbols := (unique_symbols (pyStrip raw)).take MAX_SYMBOLS
  if symbols = [] then
    { status := 400
      contentType := "application/json; charset=utf-8"
      cacheControl := Option.none
      body := Body.err "missing_symbols" }
  else
    { status := 200
      contentType := "application/json; charset=utf-8"
      cacheControl := some "s-maxage=12, stale-while-revalidate=60"
      body := Body.arr (buildPayload u symbols) }

/-! ### Spec-side definitions (for refinement comparisons) -/

/-- Modelled from the spec sentence for claim C1: the first candidate value
that is not absent (`None`), regardless of its truthiness. -/
def specFirstNonAbsent : List PyVal → PyVal
  | [] => PyVal.none
  | v :: vs => if v = PyVal.none then specFirstNonAbsent vs else v

/-- The spec-side reading of the live `price` extraction for claim C1:
coerce the first non-absent candidate. -/
def specLiveClose (f : FastInfo) : Option PyFloat :=
  as_float (specFirstNonAbsent [f.lastPrice, f.last_price, f.regularMarketPrice])

/-- What a Python `or`-chain actually selects: the first truthy candidate,
or the last candidate's value when none is truthy. -/
def firstTruthyElseLast : List PyVal → PyVal
  | [] => PyVal.none
  | [v] => v
  | v :: vs => if truthy v then v else firstTruthyElseLast vs

/-- Token normalization as the spec lists it: trim, then uppercase. -/
def normToken (t : PyStr) : PyStr :=
  pyUpper (pyStrip t)

/-- Stage-five deduplication as the spec words it: keep only the first
occurrence of each (post-normalization) token, preserving order. -/
def dedupAux : List PyStr → List PyStr → List PyStr
  | [], _ => []
  | x :: xs, seen =>
      if x ∈ seen then dedupAux xs seen
      else x :: dedupAux xs (x :: seen)

/-- The spec's six-stage normalization pipeline for claim C5: split on
`","`, normalize every token, discard empties, deduplicate keeping first
occurrences, truncate to 220 entries. -/
def specNormalize (raw : PyStr) : List PyStr :=
  (dedupAux (((splitComma raw).map normToken).filter (fun s => s ≠ [])) []).take 220

/-! ### Concrete test data used by witnesses and counterexamples -/

/-- A snapshot whose `lastPrice` is a present zero and whose `last_price`
is five. -/
def fastZero : FastInfo :=
  { lastPrice := PyVal.num (PyFloat.finite 0)
    last_price := PyVal.num (PyFloat.finite 5) }

/-- The 5-day history of the spec's test case 6: closes `[98, 101]` and
volumes `[1000, 1200]`, oldest to newest. -/
def histTwoDay : History :=
  { indexLen := 2
    hasClose := true
    closeCol := [PyFloat.finite 98, PyFloat.finite 101]
    hasVolume := true
    volumeCol := [PyFloat.finite 1000, PyFloat.finite 1200] }

/-- A test upstream: `AAPL` has a live snapshot (price 110, previous
close 100), `MSFT`'s snapshot retrieval raises but its history is the
two-day series, and every other symbol has neither. -/
def uTest : Upstream :=
  { fast := fun s =>
      if s = "AAPL".toList then
        Except.ok
          { lastPrice := PyVal.num (PyFloat.finite 110)
            previousClose := PyVal.num (PyFloat.finite 100) }
      else Except.error ()
    hist := fun s =>
      if s = "MSFT".toList then Except.ok (some histTwoDay)
      else Except.error () }

/-- An upstream on which every retrieval raises. -/
def uErr : Upstream :=
  { fast := fun _ => Except.error ()
    hist := fun _ => Except.error () }

/-- The record `uTest` produces for `AAPL`: price 110, previous close
100, change percentage exactly 10, currency defaulted to `"USD"`. -/
def recAAPL : Record :=
  { symbol := "AAPL".toList
    price := PyFloat.finite 110
    previousClose := some (PyFloat.finite 100)
    changePct := some (PyFloat.finite 10)
    marketCap := Option.none
    volume := Option.none
    averageVolume := Option.none
    high24h := Option.none
    low24h := Option.none
    currency := "USD".toList
    exchange := Option.none
    name := "AAPL".toList }

/-! ### Helper lemmas -/

/-- The code's one-pass loop of `unique_symbols` equals the spec's staged
pipeline: normalize and filter first, then deduplicate. -/
theorem uniqAux_eq_dedupAux (ts : List PyStr) :
    ∀ seen, uniqAux ts seen =
      dedupAux ((ts.map normToken).filter (fun s => s ≠ [])) seen := by
  induction ts with
  | nil => intro seen; rfl
  | cons t ts ih =>
      intro seen
      show (if normToken t = [] ∨ normToken t ∈ seen then uniqAux ts seen
            else normToken t :: uniqAux ts (normToken t :: seen)) = _
      rw [List.map_cons, List.filter_cons]
      by_cases hnil : normToken t = []
      · simp [hnil, ih]
      · by_cases hseen : normToken t ∈ seen
        · simp [hnil, hseen, dedupAux, ih]
        · simp [hnil, hseen, dedupAux, ih]

/-- Coercion of a genuine non-NaN float returns it unchanged. -/
theorem as_float_num_of_ne_nan {f : PyFloat} (h : f ≠ PyFloat.nan) :
    as_float (PyVal.num f) = some f := by
  cases f with
  | finite q => rfl
  | inf p => rfl
  | nan => exact absurd rfl h

/-- Coercion never produces NaN. -/
theorem as_float_ne_some_nan (v : PyVal) : as_float v ≠ some PyFloat.nan := by
  cases v with
  | none => simp [as_float]
  | num f => cases f <;> simp [as_float, tryFloat, pyEqSelf]
  | strNum f => cases f <;> simp [as_float, tryFloat, pyEqSelf]
  | strBad s => simp [as_float, tryFloat]
  | obj => simp [as_float, tryFloat]

/-- Binding a NaN-free optional float through numeric coercion is the
identity. -/
theorem bind_as_float_num {o : Option PyFloat}
    (hall : ∀ f, o = some f → f ≠ PyFloat.nan) :
    o.bind (fun f => as_float (PyVal.num f)) = o := by
  cases o with
  | none => rfl
  | some f => simpa using as_float_num_of_ne_nan (hall f rfl)

/-- Every element surviving `dropna` is non-NaN. -/
theorem dropna_ne_nan {col : List PyFloat} {f : PyFloat} (h : f ∈ dropna col) :
    f ≠ PyFloat.nan := by
  have := List.mem_filter.mp h
  simpa using this.2

/-- `parse_close_and_prev` on a non-empty history with both columns:
the last, the second-to-last, and the last non-missing cells. -/
theorem parse_close_and_prev_eq (h : History) (hlen : h.indexLen ≠ 0)
    (hc : h.hasClose = true) (hv : h.hasVolume = true) :
    parse_close_and_prev (some h) =
      ((dropna h.closeCol).getLast?,
       (dropna h.closeCol).dropLast.getLast?,
       (dropna h.volumeCol).getLast?) := by
  have h1 : ((dropna h.closeCol).getLast?).bind (fun f => as_float (PyVal.num f)) =
      (dropna h.closeCol).getLast? :=
    bind_as_float_num (fun f hf => dropna_ne_nan (List.mem_of_mem_getLast? hf))
  have h2 : ((dropna h.closeCol).dropLast.getLast?).bind (fun f => as_float (PyVal.num f)) =
      (dropna h.closeCol).dropLast.getLast? :=
    bind_as_float_num (fun f hf =>
      dropna_ne_nan ((List.dropLast_sublist _).mem (List.mem_of_mem_getLast? hf)))
  have h3 : ((dropna h.volumeCol).getLast?).bind (fun f => as_float (PyVal.num f)) =
      (dropna h.volumeCol).getLast? :=
    bind_as_float_num (fun f hf => dropna_ne_nan (List.mem_of_mem_getLast? hf))
  simp [parse_close_and_prev, hlen, hc, hv, h1, h2, h3]

/-- When fallback resolution yields a close, `resolveSymbol` emits the
record assembled from the resolved triple and the snapshot's
non-numeric fields. -/
theorem resolveSymbol_some (u : Upstream) (s : PyStr) (c : PyFloat)
    (p v : Option PyFloat) (h : resolved u s = (some c, p, v)) :
    resolveSymbol u s = some
      { symbol := s
        price := c
        previousClose := p
        changePct := changePctOf c p
        marketCap := liveMarketCap (getFast u s)
        volume := v
        averageVolume := Option.none
        high24h := Option.none
        low24h := Option.none
        currency := currencyOut (getFast u s).currency
        exchange := (getFast u s).exchange
        name := s } := by
  unfold resolveSymbol
  rw [h]

/-- When fallback resolution yields no close, the symbol is dropped. -/
theorem resolveSymbol_none (u : Upstream) (s : PyStr)
    (p v : Option PyFloat) (h : resolved u s = (Option.none, p, v)) :
    resolveSymbol u s = Option.none := by
  unfold resolveSymbol
  rw [h]

/-- An emitted record carries its own symbol. -/
theorem resolveSymbol_symbol {u : Upstream} {s : PyStr} {r : Record}
    (h : resolveSymbol u s = some r) : r.symbol = s := by
  rcases hres : resolved u s with ⟨c, pv⟩
  rcases pv with ⟨p, v⟩
  cases c with
  | none => rw [resolveSymbol_none u s p v hres] at h; exact Option.noConfusion h
  | some c0 =>
      rw [resolveSymbol_some u s c0 p v hres] at h
      have := Option.some.inj h
      rw [← this]

/-- The `for` loop with `continue` builds exactly the `filterMap`. -/
theorem buildPayload_eq_filterMap (u : Upstream) (l : List PyStr) :
    buildPayload u l = l.filterMap (resolveSymbol u) := by
  induction l with
  | nil => rfl
  | cons s ss ih => cases h : resolveSymbol u s <;> simp [buildPayload, h, ih]

/-- The payload is as long as the list of resolvable symbols. -/
theorem length_filterMap_resolve (u : Upstream) (l : List PyStr) :
    (l.filterMap (resolveSymbol u)).length =
      (l.filter (fun s => (resolveSymbol u s).isSome)).length := by
  induction l with
  | nil => rfl
  | cons s ss ih => cases h : resolveSymbol u s <;> simp [h, ih]

/-- The payload's symbols are exactly the resolvable symbols in order. -/
theorem map_symbol_filterMap (u : Upstream) (l : List PyStr) :
    (l.filterMap (resolveSymbol u)).map Record.symbol =
      l.filter (fun s => (resolveSymbol u s).isSome) := by
  induction l with
  | nil => rfl
  | cons s ss ih =>
      cases h : resolveSymbol u s with
      | none => simp [h, ih]
      | some r => simp [h, ih, resolveSymbol_symbol h]

/-- A snapshot retrieval that raises yields the empty snapshot. -/
theorem getFast_of_error {u : Upstream} {s : PyStr}
    (h : u.fast s = Except.error ()) : getFast u s = emptyFast := by
  unfold getFast; rw [h]

/-- A snapshot retrieval that succeeds yields its snapshot. -/
theorem getFast_of_ok {u : Upstream} {s : PyStr} {f : FastInfo}
    (h : u.fast s = Except.ok f) : getFast u s = f := by
  unfold getFast; rw [h]

/-- Per-symbol resolution reads nothing of the upstream beyond the
symbol's own snapshot and history. -/
theorem resolveSymbol_congr {u u' : Upstream} {s : PyStr}
    (hf : getFast u s = getFast u' s) (hh : u.hist s = u'.hist s) :
    resolveSymbol u s = resolveSymbol u' s := by
  have hres : resolved u s = resolved u' s := by
    unfold resolved; rw [hf, hh]
  unfold resolveSymbol
  rw [hres, hf]

/-- When the live close is present, the fallback block does not run. -/
theorem resolved_of_live_close {u : Upstream} {s : PyStr} {c : PyFloat}
    (hclose : liveClose (getFast u s) = some c) :
    resolved u s = (some c, livePrevClose (getFast u s), liveVolume (getFast u s)) := by
  simp only [resolved]
  rw [hclose]
  simp

/-- When the live close is absent and the history retrieval succeeds,
each of the three fields is filled from the parsed history only when
still absent. -/
theorem resolved_of_no_live_close {u : Upstream} {s : PyStr}
    {histOpt : Option History}
    (hclose : liveClose (getFast u s) = Option.none)
    (hh : u.hist s = Except.ok histOpt) :
    resolved u s =
      ((parse_close_and_prev histOpt).1,
       (if livePrevClose (getFast u s) = Option.none
        then (parse_close_and_prev histOpt).2.1
        else livePrevClose (getFast u s)),
       (if liveVolume (getFast u s) = Option.none
        then (parse_close_and_prev histOpt).2.2
        else liveVolume (getFast u s))) := by
  rcases hp : parse_close_and_prev histOpt with ⟨a, bc⟩
  rcases bc with ⟨b, c⟩
  simp only [resolved]
  rw [hclose, hh]
  simp [hp]

/-- When the live close is absent and the history retrieval raises, the
live triple is returned untouched. -/
theorem resolved_of_hist_error {u : Upstream} {s : PyStr}
    (hclose : liveClose (getFast u s) = Option.none)
    (hh : u.hist s = Except.error ()) :
    resolved u s =
      (Option.none, livePrevClose (getFast u s), liveVolume (getFast u s)) := by
  simp only [resolved]
  rw [hclose, hh]
  simp

/-- Binding an optional float through numeric coercion never yields NaN. -/
theorem bind_as_float_ne_nan (o : Option PyFloat) :
    o.bind (fun f => as_float (PyVal.num f)) ≠ some PyFloat.nan := by
  cases o with
  | none => simp
  | some f => simpa using as_float_ne_some_nan (PyVal.num f)

/-- No component of the parsed history is NaN. -/
theorem parse_ne_nan (histOpt : Option History) :
    (parse_close_and_prev histOpt).1 ≠ some PyFloat.nan ∧
    (parse_close_and_prev histOpt).2.1 ≠ some PyFloat.nan ∧
    (parse_close_and_prev histOpt).2.2 ≠ some PyFloat.nan := by
  cases histOpt with
  | none => simp [parse_close_and_prev]
  | some h =>
      unfold parse_close_and_prev
      by_cases hlen : h.indexLen = 0
      · simp [hlen]
      · simp only [hlen, if_false]
        exact ⟨bind_as_float_ne_nan _, bind_as_float_ne_nan _, bind_as_float_ne_nan _⟩

/-- No component of the resolved triple is NaN. -/
theorem resolved_ne_nan (u : Upstream) (s : PyStr) :
    (resolved u s).1 ≠ some PyFloat.nan ∧
    (resolved u s).2.1 ≠ some PyFloat.nan ∧
    (resolved u s).2.2 ≠ some PyFloat.nan := by
  by_cases hc : liveClose (getFast u s) = Option.none
  · cases hh : u.hist s with
    | error e =>
        cases e
        rw [resolved_of_hist_error hc hh]
        exact ⟨by simp, as_float_ne_some_nan _, as_float_ne_some_nan _⟩
    | ok histOpt =>
        rw [resolved_of_no_live_close hc hh]
        dsimp only
        obtain ⟨h1, h2, h3⟩ := parse_ne_nan histOpt
        refine ⟨h1, ?_, ?_⟩
        · split
          · exact h2
          · exact as_float_ne_some_nan _
        · split
          · exact h3
          · exact as_float_ne_some_nan _
  · rcases ho : liveClose (getFast u s) with _ | c0
    · exact absurd ho hc
    · rw [resolved_of_live_close ho]
      dsimp only
      refine ⟨?_, as_float_ne_some_nan _, as_float_ne_some_nan _⟩
      intro hbad
      have hc0 : c0 = PyFloat.nan := Option.some.inj hbad
      exact as_float_ne_some_nan _
        (show liveClose (getFast u s) = some PyFloat.nan by rw [ho, hc0])

/-- The emitted currency string is never empty. -/
theorem currencyOut_ne_nil (o : Option PyStr) : currencyOut o ≠ [] := by
  cases o with
  | none => simp [currencyOut]
  | some s =>
      by_cases hs : s = []
      · simp [currencyOut, hs]
      · simp [currencyOut, hs]

/-! ### Claim C1 -/

/-- Claim C1 as stated is false of the code: for a snapshot whose
`lastPrice` is a present zero and whose `last_price` is five, the
spec's first-non-absent rule picks the zero, but the code's `or`-chain
skips the falsy zero and picks five. -/
theorem C1_zero_price_counterexample :
    fastZero.lastPrice ≠ PyVal.none ∧
    specLiveClose fastZero = some (PyFloat.finite 0) ∧
    liveClose fastZero = some (PyFloat.finite 5) := by
  refine ⟨by decide, by decide, by decide⟩

/-- Claim C1 amended: each live numeric field is the coercion of the
first *truthy* candidate value, falling back to the last candidate's
value when no candidate is truthy; in particular a present falsy value
(such as a zero price) earlier in the chain is skipped in favour of a
later candidate. -/
theorem C1_or_chain_first_truthy (f : FastInfo) :
    liveClose f =
      as_float (firstTruthyElseLast [f.lastPrice, f.last_price, f.regularMarketPrice]) ∧
    livePrevClose f =
      as_float (firstTruthyElseLast [f.previousClose, f.previous_close]) ∧
    liveVolume f =
      as_float (firstTruthyElseLast [f.lastVolume, f.last_volume]) ∧
    liveMarketCap f =
      as_float (firstTruthyElseLast [f.marketCap, f.market_cap]) := by
  refine ⟨?_, ?_, ?_, ?_⟩ <;>
    simp only [liveClose, livePrevClose, liveVolume, liveMarketCap, pyOr,
      firstTruthyElseLast] <;>
    split_ifs <;> rfl

/-! ### Claim C5 -/

/-- Claim C5: the symbol list the handler uses equals the spec's staged
pipeline — split on comma, trim and uppercase, discard empties,
deduplicate keeping first occurrences, truncate to 220 — its length
never exceeds 220, and the spec's worked example normalizes as stated. -/
theorem C5_symbol_normalization (raw : PyStr) :
    (unique_symbols raw).take MAX_SYMBOLS = specNormalize raw ∧
    ((unique_symbols raw).take MAX_SYMBOLS).length ≤ 220 ∧
    unique_symbols "aapl, MSFT,aapl , msft,GOOG".toList =
      ["AAPL".toList, "MSFT".toList, "GOOG".toList] := by
  refine ⟨?_, ?_, by decide⟩
  · unfold unique_symbols specNormalize MAX_SYMBOLS
    rw [uniqAux_eq_dedupAux]
  · simpa [MAX_SYMBOLS, List.length_take] using min_le_left 220 (unique_symbols raw).length

/-! ### Claim C2 -/

/-- Claim C2: for every request that passes validation, the 200 body is
exactly the records of the resolvable symbols in input order; an
unresolvable symbol contributes nothing, the payload's symbols are the
resolvable symbols in their original relative order, and the payload
length equals the count of resolvable symbols. -/
theorem C2_payload_shape (u : Upstream) (raw : PyStr)
    (hne : (unique_symbols (pyStrip raw)).take MAX_SYMBOLS ≠ []) :
    (do_GET u raw).status = 200 ∧
    (do_GET u raw).body =
      Body.arr (((unique_symbols (pyStrip raw)).take MAX_SYMBOLS).filterMap
        (resolveSymbol u)) ∧
    (((unique_symbols (pyStrip raw)).take MAX_SYMBOLS).filterMap
        (resolveSymbol u)).map Record.symbol =
      ((unique_symbols (pyStrip raw)).take MAX_SYMBOLS).filter
        (fun s => (resolveSymbol u s).isSome) ∧
    (((unique_symbols (pyStrip raw)).take MAX_SYMBOLS).filterMap
        (resolveSymbol u)).length =
      (((unique_symbols (pyStrip raw)).take MAX_SYMBOLS).filter
        (fun s => (resolveSymbol u s).isSome)).length := by
  refine ⟨?_, ?_, map_symbol_filterMap u _, length_filterMap_resolve u _⟩ <;>
    simp [do_GET, hne, buildPayload_eq_filterMap]

/-- Witness for C2 at a concrete request: `AAPL` resolves live, `MSFT`
resolves through the historical fallback, `ZZZ` is dropped. -/
theorem C2_payload_shape_witness :
    (do_GET uTest "AAPL,MSFT,ZZZ".toList).status = 200 ∧
    (do_GET uTest "AAPL,MSFT,ZZZ".toList).body =
      Body.arr (((unique_symbols (pyStrip "AAPL,MSFT,ZZZ".toList)).take MAX_SYMBOLS).filterMap
        (resolveSymbol uTest)) ∧
    (((unique_symbols (pyStrip "AAPL,MSFT,ZZZ".toList)).take MAX_SYMBOLS).filterMap
        (resolveSymbol uTest)).map Record.symbol =
      ((unique_symbols (pyStrip "AAPL,MSFT,ZZZ".toList)).take MAX_SYMBOLS).filter
        (fun s => (resolveSymbol uTest s).isSome) ∧
    (((unique_symbols (pyStrip "AAPL,MSFT,ZZZ".toList)).take MAX_SYMBOLS).filterMap
        (resolveSymbol uTest)).length =
      (((unique_symbols (pyStrip "AAPL,MSFT,ZZZ".toList)).take MAX_SYMBOLS).filter
        (fun s => (resolveSymbol uTest s).isSome)).length :=
  C2_payload_shape uTest ("AAPL,MSFT,ZZZ".toList) (by decide)

/-! ### Claim C3 -/

/-- Claim C3: when the live snapshot yields no price and the history
retrieval succeeds on a non-empty frame with both columns, the price
becomes the most recent non-missing close, the previous close becomes
the second-most-recent non-missing close only if still absent, and the
volume becomes the most recent non-missing volume only if still absent —
present live fields are left unchanged. -/
theorem C3_history_fallback (u : Upstream) (s : PyStr) (h : History)
    (hlive : liveClose (getFast u s) = Option.none)
    (hh : u.hist s = Except.ok (some h))
    (hlen : h.indexLen ≠ 0) (hc : h.hasClose = true) (hv : h.hasVolume = true) :
    resolved u s =
      ((dropna h.closeCol).getLast?,
       (if livePrevClose (getFast u s) = Option.none
        then (dropna h.closeCol).dropLast.getLast?
        else livePrevClose (getFast u s)),
       (if liveVolume (getFast u s) = Option.none
        then (dropna h.volumeCol).getLast?
        else liveVolume (getFast u s))) := by
  rw [resolved_of_no_live_close hlive hh, parse_close_and_prev_eq h hlen hc hv]

/-- Witness for C3 at the spec's test case 6: closes `[98, 101]` and
volumes `[1000, 1200]` resolve `MSFT` to price 101, previous close 98,
volume 1200. -/
theorem C3_history_fallback_witness :
    (resolved uTest "MSFT".toList =
      ((dropna histTwoDay.closeCol).getLast?,
       (if livePrevClose (getFast uTest "MSFT".toList) = Option.none
        then (dropna histTwoDay.closeCol).dropLast.getLast?
        else livePrevClose (getFast uTest "MSFT".toList)),
       (if liveVolume (getFast uTest "MSFT".toList) = Option.none
        then (dropna histTwoDay.volumeCol).getLast?
        else liveVolume (getFast uTest "MSFT".toList)))) ∧
    resolved uTest "MSFT".toList =
      (some (PyFloat.finite 101), some (PyFloat.finite 98), some (PyFloat.finite 1200)) :=
  ⟨C3_history_fallback uTest ("MSFT".toList) histTwoDay (by decide) (by rfl)
      (by decide) (by decide) (by decide),
   by decide⟩

/-! ### Claim C4 -/

/-- Claim C4: in every emitted record, `changePct` is exactly
`((price - previousClose) / previousClose) * 100.0` when the previous
close is present and strictly positive, and absent when the previous
close is absent or not strictly positive (in particular when it is 0). -/
theorem C4_change_pct (u : Upstream) (s : PyStr) (r : Record)
    (h : resolveSymbol u s = some r) :
    (∀ p, r.previousClose = some p → p.gtZero = true →
        r.changePct =
          some (PyFloat.mul (PyFloat.div (PyFloat.sub r.price p) p) (PyFloat.finite 100))) ∧
    (r.previousClose = Option.none → r.changePct = Option.none) ∧
    (∀ p, r.previousClose = some p → p.gtZero = false → r.changePct = Option.none) := by
  rcases hres : resolved u s with ⟨c, pv⟩
  rcases pv with ⟨p0, v0⟩
  cases c with
  | none => rw [resolveSymbol_none u s p0 v0 hres] at h; exact Option.noConfusion h
  | some c0 =>
      rw [resolveSymbol_some u s c0 p0 v0 hres] at h
      have hr := (Option.some.inj h).symm
      subst hr
      refine ⟨?_, ?_, ?_⟩
      · intro p hp hgt
        simp only at hp
        subst hp
        simp [changePctOf, hgt]
      · intro hp
        simp only at hp
        subst hp
        simp [changePctOf]
      · intro p hp hgt
        simp only at hp
        subst hp
        simp [changePctOf, hgt]

/-- `uTest` resolves `AAPL` to exactly `recAAPL`. -/
theorem resolveSymbol_uTest_AAPL :
    resolveSymbol uTest "AAPL".toList = some recAAPL := by
  have h1 : resolved uTest "AAPL".toList =
      (some (PyFloat.finite 110), some (PyFloat.finite 100), Option.none) := by decide
  rw [resolveSymbol_some _ _ _ _ _ h1]
  have harith : changePctOf (PyFloat.finite 110) (some (PyFloat.finite 100)) =
      some (PyFloat.finite 10) := by
    simp only [changePctOf, PyFloat.gtZero, PyFloat.sub, PyFloat.div, PyFloat.mul]
    norm_num
  rw [harith]
  rfl

/-- Witness for C4 at the spec's example: price 110 and previous close
100 give `changePct` exactly 10. -/
theorem C4_change_pct_witness :
    recAAPL.changePct = some (PyFloat.finite 10) ∧
    ((∀ p, recAAPL.previousClose = some p → p.gtZero = true →
        recAAPL.changePct =
          some (PyFloat.mul (PyFloat.div (PyFloat.sub recAAPL.price p) p) (PyFloat.finite 100))) ∧
     (recAAPL.previousClose = Option.none → recAAPL.changePct = Option.none) ∧
     (∀ p, recAAPL.previousClose = some p → p.gtZero = false →
        recAAPL.changePct = Option.none)) :=
  ⟨by decide, C4_change_pct uTest ("AAPL".toList) recAAPL resolveSymbol_uTest_AAPL⟩

/-! ### Claim C6 -/

/-- Claim C6: a request whose normalized symbol list is empty gets
HTTP 400, JSON content type, body exactly `{"error": "missing_symbols"}`
and no cache header; the response does not depend on the upstream at all
(no upstream call is made); and every other request gets status 200, so
this is the only request-level error response. -/
theorem C6_missing_symbols (u u' : Upstream) (raw : PyStr)
    (hempty : unique_symbols (pyStrip raw) = []) :
    do_GET u raw =
      { status := 400
        contentType := "application/json; charset=utf-8"
        cacheControl := Option.none
        body := Body.err "missing_symbols" } ∧
    do_GET u raw = do_GET u' raw ∧
    (∀ raw', unique_symbols (pyStrip raw') ≠ [] → (do_GET u raw').status = 200) := by
  refine ⟨?_, ?_, ?_⟩
  · simp [do_GET, hempty]
  · simp [do_GET, hempty]
  · intro raw' hne
    have htake : (unique_symbols (pyStrip raw')).take MAX_SYMBOLS ≠ [] := by
      intro he
      rcases List.take_eq_nil_iff.mp he with h0 | h0
      · exact absurd h0 (by simp [MAX_SYMBOLS])
      · exact hne h0
    simp [do_GET, htake]

/-- Witness for C6: a raw value of blanks and commas yields the 400
response on two entirely different upstreams. -/
theorem C6_missing_symbols_witness :
    do_GET uTest "  , ,".toList =
      { status := 400
        contentType := "application/json; charset=utf-8"
        cacheControl := Option.none
        body := Body.err "missing_symbols" } ∧
    do_GET uTest "  , ,".toList = do_GET uErr "  , ,".toList ∧
    (∀ raw', unique_symbols (pyStrip raw') ≠ [] → (do_GET uTest raw').status = 200) :=
  C6_missing_symbols uTest uErr ("  , ,".toList) (by decide)

/-! ### Claim C7 -/

/-- Claim C7: numeric coercion returns the converted value exactly when
conversion succeeds with a non-NaN result; an absent source, a
conversion failure, and a NaN result all uniformly coerce to absent; and
no coerced output numeric field of an emitted record is NaN. -/
theorem C7_coercion_guard :
    (∀ v : PyVal,
      (v = PyVal.none → as_float v = Option.none) ∧
      (tryFloat v = Except.error () → as_float v = Option.none) ∧
      (tryFloat v = Except.ok PyFloat.nan → as_float v = Option.none) ∧
      (∀ f, tryFloat v = Except.ok f → f ≠ PyFloat.nan → as_float v = some f)) ∧
    (∀ (u : Upstream) (s : PyStr) (r : Record), resolveSymbol u s = some r →
      r.price ≠ PyFloat.nan ∧ r.previousClose ≠ some PyFloat.nan ∧
      r.volume ≠ some PyFloat.nan ∧ r.marketCap ≠ some PyFloat.nan) := by
  constructor
  · intro v
    refine ⟨?_, ?_, ?_, ?_⟩
    · intro h; subst h; rfl
    · intro h; unfold as_float; split
      · rfl
      · rw [h]
    · intro h; unfold as_float; split
      · rfl
      · rw [h]; rfl
    · intro f h hne
      unfold as_float
      split
      · rename_i hv; rw [hv] at h; exact Except.noConfusion (show Except.error () = Except.ok f from h)
      · rw [h]
        cases f with
        | finite q => rfl
        | inf p => rfl
        | nan => exact absurd rfl hne
  · intro u s r h
    rcases hres : resolved u s with ⟨c, pv⟩
    rcases pv with ⟨p0, v0⟩
    obtain ⟨hn1, hn2, hn3⟩ := resolved_ne_nan u s
    rw [hres] at hn1 hn2 hn3
    cases c with
    | none => rw [resolveSymbol_none u s p0 v0 hres] at h; exact Option.noConfusion h
    | some c0 =>
        rw [resolveSymbol_some u s c0 p0 v0 hres] at h
        have hr := (Option.some.inj h).symm
        subst hr
        refine ⟨?_, hn2, hn3, ?_⟩
        · intro hbad
          have hc0 : c0 = PyFloat.nan := hbad
          exact hn1 (by simp [hc0])
        · show liveMarketCap (getFast u s) ≠ some PyFloat.nan
          exact as_float_ne_some_nan _

/-! ### Claim C8 -/

/-- Claim C8: a raising snapshot retrieval is equivalent to an empty
snapshot, a raising history retrieval is equivalent to no historical
data, a symbol's resolution depends only on that symbol's own upstream
data (so one symbol's failure cannot disturb the others), and every
validated request takes the 200 success path regardless of the
upstream's failures. -/
theorem C8_upstream_error_isolation :
    (∀ (u u' : Upstream) (s : PyStr),
      u.fast s = Except.error () → u'.fast s = Except.ok emptyFast →
      u'.hist s = u.hist s → resolveSymbol u s = resolveSymbol u' s) ∧
    (∀ (u u' : Upstream) (s : PyStr),
      u.hist s = Except.error () → u'.hist s = Except.ok Option.none →
      u'.fast s = u.fast s → resolveSymbol u s = resolveSymbol u' s) ∧
    (∀ (u u' : Upstream) (s : PyStr),
      u.fast s = u'.fast s → u.hist s = u'.hist s →
      resolveSymbol u s = resolveSymbol u' s) ∧
    (∀ (u : Upstream) (raw : PyStr),
      (unique_symbols (pyStrip raw)).take MAX_SYMBOLS ≠ [] →
      (do_GET u raw).status = 200) := by
  refine ⟨?_, ?_, ?_, ?_⟩
  · intro u u' s hf hf' hh
    exact resolveSymbol_congr ((getFast_of_error hf).trans (getFast_of_ok hf').symm) hh.symm
  · intro u u' s hh hh' hf
    have hfast : getFast u s = getFast u' s := by unfold getFast; rw [hf]
    have hres : resolved u s = resolved u' s := by
      by_cases hc : liveClose (getFast u s) = Option.none
      · rw [resolved_of_hist_error hc hh,
          resolved_of_no_live_close (hfast ▸ hc) hh']
        rw [← hfast]
        refine congrArg₂ Prod.mk rfl (congrArg₂ Prod.mk ?_ ?_)
        · simp only [parse_close_and_prev]
          split
          · assumption
          · rfl
        · simp only [parse_close_and_prev]
          split
          · assumption
          · rfl
      · rcases ho : liveClose (getFast u s) with _ | c0
        · exact absurd ho hc
        · rw [resolved_of_live_close ho, resolved_of_live_close (hfast ▸ ho), hfast]
    unfold resolveSymbol
    rw [hres, hfast]
  · intro u u' s hf hh
    exact resolveSymbol_congr (by unfold getFast; rw [hf]) hh
  · intro u raw hne
    simp [do_GET, hne]

/-! ### Claim C9 -/

/-- Claim C9: `as_float` is total — it is a plain function into an
optional float whose absent results are exactly the absent input, the
failed conversion and the NaN result — and an infinite value is returned
unchanged, so an infinite upstream price propagates into an emitted
record's price field. -/
theorem C9_as_float_infinity :
    (∀ v : PyVal, as_float v = Option.none ↔
      (v = PyVal.none ∨ tryFloat v = Except.error () ∨
        tryFloat v = Except.ok PyFloat.nan)) ∧
    (∀ b : Bool, as_float (PyVal.num (PyFloat.inf b)) = some (PyFloat.inf b)) ∧
    (∀ (u : Upstream) (s : PyStr) (b : Bool),
      (getFast u s).lastPrice = PyVal.num (PyFloat.inf b) →
      ∃ r, resolveSymbol u s = some r ∧ r.price = PyFloat.inf b) := by
  refine ⟨?_, ?_, ?_⟩
  · intro v
    cases v with
    | none => simp [as_float, tryFloat]
    | num f => cases f <;> simp [as_float, tryFloat, pyEqSelf]
    | strNum f => cases f <;> simp [as_float, tryFloat, pyEqSelf]
    | strBad s => simp [as_float, tryFloat]
    | obj => simp [as_float, tryFloat]
  · intro b; rfl
  · intro u s b hlp
    have hclose : liveClose (getFast u s) = some (PyFloat.inf b) := by
      unfold liveClose
      rw [hlp]
      rfl
    have hres := resolved_of_live_close hclose
    exact ⟨_, resolveSymbol_some u s _ _ _ hres, rfl⟩

/-! ### Claim C10 -/

/-- Claim C10: the emitted currency defaults to `"USD"` both when the
upstream currency is absent and when it is the (falsy) empty string, a
non-empty upstream currency is passed through, and the emitted currency
is never the empty string. -/
theorem C10_currency_default (u : Upstream) (s : PyStr) (r : Record)
    (h : resolveSymbol u s = some r) :
    r.currency ≠ [] ∧
    (((getFast u s).currency = Option.none ∨ (getFast u s).currency = some []) →
      r.currency = "USD".toList) ∧
    (∀ c, (getFast u s).currency = some c → c ≠ [] → r.currency = c) := by
  rcases hres : resolved u s with ⟨c, pv⟩
  rcases pv with ⟨p0, v0⟩
  cases c with
  | none => rw [resolveSymbol_none u s p0 v0 hres] at h; exact Option.noConfusion h
  | some c0 =>
      rw [resolveSymbol_some u s c0 p0 v0 hres] at h
      have hr := (Option.some.inj h).symm
      subst hr
      refine ⟨currencyOut_ne_nil _, ?_, ?_⟩
      · rintro (hcur | hcur) <;> simp [currencyOut, hcur]
      · intro cval hcur hcne
        simp [currencyOut, hcur, hcne]

/-- Witness for C10: `AAPL`'s snapshot reports no currency and its
record carries `"USD"`. -/
theorem C10_currency_default_witness :
    recAAPL.currency ≠ [] ∧
    (((getFast uTest "AAPL".toList).currency = Option.none ∨
        (getFast uTest "AAPL".toList).currency = some []) →
      recAAPL.currency = "USD".toList) ∧
    (∀ c, (getFast uTest "AAPL".toList).currency = some c → c ≠ [] →
      recAAPL.currency = c) :=
  C10_currency_default uTest ("AAPL".toList) recAAPL resolveSymbol_uTest_AAPL

end YFin
